import Mathlib

/-!
Shallow embedding of the wrtcion peer-to-peer call program (wrtcion.go).

The embedding models the connection state machine, the peer registry, the
signaling handlers (`httpHandleSDP`, `httpHandleCandidate`,
`handleICECandidate`), outbound dialing (`RTCPeer.Ring`), teardown
(`Connection.Close`), text messaging (the `/msg` command path together with
`Connection.SendMsg`), and the two media streaming loops
(`Connection.sendAudio`, `Connection.saveToDisk`).

External fallible calls (webrtc library calls, JSON marshalling, HTTP posts,
file IO) are modelled by boolean oracles collected in environment records;
observable side effects (outbound signals, log lines, handle closes) are
modelled as an ordered list of events.

Pointer aliasing matters in this program: the registry map stores pointers to
`Connection` objects that the handlers mutate in place, and `Close` deletes
the registry entry keyed by the possibly different `conn.remoteAddr`.  So
connections live in a store indexed by `ConnId` and the registry maps remote
addresses to store indices.
-/

inductive ConnectionState where
  | Standby
  | Ringing
  | Answering
  | InCall
  | Closed
deriving DecidableEq, Repr

inductive ConnectionMode where
  | TextConnection
  | VoiceConnectionSimplex
  | VoiceConnectionDuplex
  | VideoConnectionSimplex
deriving DecidableEq, Repr

/-- Wire actions are integers on the wire (`SignalAction` is an int decoded
from JSON); 0 = Offer, 1 = Answer, 2 = Refuse, anything else falls into the
handler's default branch. -/
def offerAction : Nat := 0

def answerAction : Nat := 1

def refuseAction : Nat := 2

/-- Observable side effects of the core, in order of occurrence. -/
inductive Event where
  | log (msg : String)
  | sentSDP (dest : String) (action : Nat) (origin : String)
  | sentCandidate (dest : String) (cand : String) (origin : String)
  | sentText (dest : String) (msg : String)
  | sentSample
  | wroteToDisk
  | closedDataChan
  | closedPeerConn
  | closedFile
  | attachedAudioReceiver
  | attachedAudioSender
deriving DecidableEq, Repr

/-- The `Connection` struct; `dataChan`, `audioSndr` model handle presence,
`remoteDescription`/`localDescription` mirror the underlying peer session
state that the handlers branch on. -/
structure Conn where
  remoteAddr : String
  isInitiator : Bool
  mode : ConnectionMode
  state : ConnectionState
  pendingCandidates : List String
  dataChan : Bool
  audioSndr : Bool
  remoteDescription : Option String
  localDescription : Option String
deriving DecidableEq, Repr

abbrev ConnId := Nat

/-- The `RTCPeer` struct: the registry maps remote addresses to indices into
a store of connections (modelling Go pointers into a shared heap). -/
structure Peer where
  listenAddr : String
  connections : List (String × ConnId)
  store : List Conn
deriving DecidableEq, Repr

def Peer.lookup (p : Peer) (addr : String) : Option ConnId :=
  List.lookup addr p.connections

def Peer.getConn (p : Peer) (id : ConnId) : Option Conn :=
  p.store[id]?

def Peer.setConn (p : Peer) (id : ConnId) (c : Conn) : Peer :=
  { p with store := p.store.set id c }

/-- Go `delete(peer.Connections, addr)`. -/
def Peer.eraseAddr (p : Peer) (addr : String) : Peer :=
  { p with connections := p.connections.filter (fun e => e.1 ≠ addr) }

/-- `newConnection`: state Standby, empty candidate buffer; note that the
`remote` argument of the Go function is never stored, so `remoteAddr` is the
empty string until a later assignment. -/
def newConn (mode : ConnectionMode) : Conn :=
  { remoteAddr := ""
    isInitiator := false
    mode := mode
    state := ConnectionState.Standby
    pendingCandidates := []
    dataChan := false
    audioSndr := false
    remoteDescription := none
    localDescription := none }

/-- `Connection.Close`: no-op when already Closed; otherwise sets Closed,
closes the data channel handle when present, closes the peer session, and
deletes the registry entry keyed by `conn.remoteAddr`. -/
def closeConn (p : Peer) (id : ConnId) : List Event × Peer :=
  match p.getConn id with
  | none => ([], p)
  | some c =>
    if c.state = ConnectionState.Closed then ([], p)
    else
      let c1 := { c with state := ConnectionState.Closed }
      let evs := (if c.dataChan then [Event.closedDataChan] else []) ++
        [Event.closedPeerConn, Event.log "connection closed"]
      (evs, (p.setConn id c1).eraseAddr c.remoteAddr)

/-- `Connection.signalCandidate`: posts the candidate to the remote address.
In the source the error from `json.Marshal` is immediately shadowed by the
error from `http.Post`, so only the post (and response body close) can fail;
the oracle `candOk` decides that. -/
def signalCandidate (candOk : String → Bool) (listen remote cand : String) :
    List Event × Bool :=
  if candOk cand then ([Event.sentCandidate remote cand listen], true)
  else ([], false)

/-- Outcome of `Connection.handleICECandidate`: the source calls
`panic(err)` when signaling an immediately-forwarded candidate fails. -/
inductive ICEOutcome where
  | ret (evs : List Event) (conn : Conn)
  | panicked
deriving DecidableEq, Repr

/-- `Connection.handleICECandidate`: nil candidates are ignored; while the
remote description is unset the candidate is buffered, otherwise it is
signaled immediately and a signaling failure panics. -/
def handleICECandidate (candOk : String → Bool) (listen : String) (conn : Conn)
    (c : Option String) : ICEOutcome :=
  match c with
  | none => ICEOutcome.ret [] conn
  | some cand =>
    match conn.remoteDescription with
    | none =>
      ICEOutcome.ret []
        { conn with pendingCandidates := conn.pendingCandidates ++ [cand] }
    | some _ =>
      let s := signalCandidate candOk listen conn.remoteAddr cand
      if s.2 then ICEOutcome.ret s.1 conn else ICEOutcome.panicked

/-- Wire message of `POST /candidate`. -/
structure SignalCandidateMsg where
  candidate : String
  origin : String
deriving DecidableEq, Repr

/-- `RTCPeer.httpHandleCandidate`: decode failure or an unknown origin is
logged and dropped; otherwise the candidate is handed to the peer session
(`AddICECandidate`, whose failure is only logged). -/
def httpHandleCandidate (p : Peer) (body : Option SignalCandidateMsg)
    (addOk : Bool) : List Event × Peer :=
  match body with
  | none => ([Event.log "could not parse candidate"], p)
  | some s =>
    match p.lookup s.origin with
    | none => ([Event.log "got a candidate but was not expecting one"], p)
    | some _ =>
      if addOk then ([], p)
      else ([Event.log "could not initialize candidate"], p)

/-- Wire message of `POST /sdp`. -/
structure SignalSDP where
  sdp : String
  action : Nat
  mode : ConnectionMode
  origin : String
deriving DecidableEq, Repr

/-- Oracles for the fallible external calls made while handling an SDP
signal. -/
structure SDPEnv where
  newPeerOk : Bool
  setRemoteOk : Bool
  refuseMarshalOk : Bool
  refusePostOk : Bool
  refuseCloseOk : Bool
  createAnswerOk : Bool
  answerMarshalOk : Bool
  answerPostOk : Bool
  answerCloseOk : Bool
  setLocalAnswerOk : Bool
  candOk : String → Bool

/-- The flush loop over `conn.pendingCandidates` at the end of
`httpHandleSDP`: signals candidates in order, aborting (with a log line) at
the first failure.  Returns whether the flush completed. -/
def drainPending (candOk : String → Bool) (listen remote : String) :
    List String → List Event × Bool
  | [] => ([], true)
  | cand :: rest =>
    let s := signalCandidate candOk listen remote cand
    if s.2 then
      let r := drainPending candOk listen remote rest
      (s.1 ++ r.1, r.2)
    else ([Event.log "unable to signal remote conn"], false)

/-- Drain helper: on a completed flush the state becomes InCall; the
pending buffer is left as it is in either case (the source never clears
it). -/
def sdpDrain (candOk : String → Bool) (listen : String) (c : Conn) :
    List Event × Conn :=
  let r := drainPending candOk listen c.remoteAddr c.pendingCandidates
  if r.2 then (r.1, { c with state := ConnectionState.InCall }) else (r.1, c)

/-- The part of `httpHandleSDP` after the action guards: media attach
(`getAudio`, whose error the handler ignores), `SetRemoteDescription` with
the Refuse-notification path on failure, the answering branch
(CreateAnswer, marshal, post, close, SetLocalDescription), and the pending
candidate flush. -/
def sdpApply (env : SDPEnv) (listen origin sdp : String) (action : Nat)
    (c : Conn) : List Event × Conn :=
  let evA : List Event :=
    if (c.mode = ConnectionMode.VoiceConnectionSimplex ∧ action = offerAction)
        ∨ c.mode = ConnectionMode.VoiceConnectionDuplex then
      [Event.attachedAudioReceiver]
    else []
  if env.setRemoteOk = false then
    let evs := evA ++ [Event.log "could not set remote sdp"]
    if env.refuseMarshalOk = false then
      (evs ++ [Event.log "unable to marshal sdp answer"], c)
    else if env.refusePostOk = false then
      (evs ++ [Event.log "unable to send sdp answer"], c)
    else if env.refuseCloseOk = false then
      (evs ++ [Event.sentSDP origin refuseAction listen,
        Event.log "http error on close"], c)
    else (evs ++ [Event.sentSDP origin refuseAction listen], c)
  else
    let c1 := { c with remoteDescription := some sdp }
    if c1.state = ConnectionState.Answering then
      if env.createAnswerOk = false then
        (evA ++ [Event.log "unable to create sdp answer"], c1)
      else if env.answerMarshalOk = false then
        (evA ++ [Event.log "unable to marshal sdp answer"], c1)
      else if env.answerPostOk = false then
        (evA ++ [Event.log "unable to send sdp answer"], c1)
      else if env.answerCloseOk = false then
        (evA ++ [Event.sentSDP c1.remoteAddr answerAction listen,
          Event.log "http error on close"], c1)
      else if env.setLocalAnswerOk = false then
        (evA ++ [Event.sentSDP c1.remoteAddr answerAction listen,
          Event.log "unable to set local sdp"], c1)
      else
        let c2 := { c1 with localDescription := some "answer" }
        let r := sdpDrain env.candOk listen c2
        (evA ++ [Event.sentSDP c2.remoteAddr answerAction listen] ++ r.1, r.2)
    else
      let r := sdpDrain env.candOk listen c1
      (evA ++ r.1, r.2)

/-- The action switch of `httpHandleSDP`: guards on the current state, the
state/remoteAddr mutations of the Offer branch, the early return of the
Refuse branch, and the default branch. -/
def sdpSwitchAndApply (env : SDPEnv) (listen origin sdp : String)
    (action : Nat) (c : Conn) : List Event × Conn :=
  if action = offerAction then
    if c.state ≠ ConnectionState.Standby then
      ([Event.log "answering incoming call but we are busy"], c)
    else
      let c1 := { c with state := ConnectionState.Answering,
                         remoteAddr := origin }
      let r := sdpApply env listen origin sdp offerAction c1
      (Event.log "incoming call" :: r.1, r.2)
  else if action = answerAction then
    if c.state ≠ ConnectionState.Ringing then
      ([Event.log "answer but we were not calling"], c)
    else
      let r := sdpApply env listen origin sdp answerAction c
      (Event.log "answer" :: r.1, r.2)
  else if action = refuseAction then
    if c.state ≠ ConnectionState.Ringing then
      ([Event.log "refusal but we were not calling"], c)
    else
      ([Event.log "remote appears to be busy"],
        { c with state := ConnectionState.Standby })
  else ([Event.log "remote appears to be having problems communicating"], c)

/-- `RTCPeer.httpHandleSDP`: decode, find-or-create the connection for the
origin (creation happens for any action, before the action is examined),
then the action switch and the post-guard processing.  The find-or-create
registers the new connection before the switch runs. -/
def httpHandleSDP (env : SDPEnv) (p : Peer) (body : Option SignalSDP) :
    List Event × Peer :=
  match body with
  | none => ([Event.log "could not parse signal message from json"], p)
  | some s =>
    match p.lookup s.origin with
    | some id =>
      match p.getConn id with
      | none => ([], p)
      | some c =>
        let r := sdpSwitchAndApply env p.listenAddr s.origin s.sdp s.action c
        (r.1, p.setConn id r.2)
    | none =>
      if env.newPeerOk = false then
        ([Event.log "could not create new connection"], p)
      else
        let id := p.store.length
        let c := newConn s.mode
        let p1 : Peer :=
          { p with store := p.store ++ [c]
                   connections := (s.origin, id) :: p.connections }
        let r := sdpSwitchAndApply env p1.listenAddr s.origin s.sdp s.action c
        (r.1, p1.setConn id r.2)

/-- Oracles for the fallible external calls made during `RTCPeer.Ring`. -/
structure RingEnv where
  newPeerOk : Bool
  createDataChanOk : Bool
  loadAudioOk : Bool
  createOfferOk : Bool
  setLocalOk : Bool
  marshalOk : Bool
  postOk : Bool
  postCloseOk : Bool
deriving DecidableEq, Repr

def isVoice : ConnectionMode → Bool
  | ConnectionMode.VoiceConnectionSimplex => true
  | ConnectionMode.VoiceConnectionDuplex => true
  | _ => false

/-- The `goto fail` path of `Ring`: write the current connection back and
run `Close` on it. -/
def ringFail (p : Peer) (id : ConnId) (c : Conn) (msg : String) :
    List Event × Peer × Option ConnId :=
  let r := closeConn (p.setConn id c) id
  (Event.log msg :: r.1, r.2, none)

/-- `RTCPeer.Ring`: refuses a duplicate dial, creates the connection,
assigns the `CreateDataChannel` result and registers the connection under
the dialed address before the data channel error is checked, loads audio
for voice modes, creates and sets the local offer, marshals, sets
`remoteAddr`/`Ringing` and posts the offer; any step failure goes to the
fail path, which closes the connection. -/
def ringCall (env : RingEnv) (p : Peer) (remote : String)
    (mode : ConnectionMode) : List Event × Peer × Option ConnId :=
  if (p.lookup remote).isSome then
    ([Event.log "you are already connected"], p, none)
  else if env.newPeerOk = false then
    ([Event.log "could not create new connection"], p, none)
  else
    let id := p.store.length
    let c0 : Conn := { newConn mode with isInitiator := true,
                                         dataChan := env.createDataChanOk }
    let p1 : Peer :=
      { p with store := p.store ++ [c0]
               connections := (remote, id) :: p.connections }
    if env.createDataChanOk = false then
      ringFail p1 id c0 "unable to create data channel"
    else if isVoice mode = true ∧ env.loadAudioOk = false then
      ringFail p1 id c0 "problem loading audio file"
    else
      let c1 := if isVoice mode then { c0 with audioSndr := true } else c0
      let evAud : List Event :=
        if isVoice mode then [Event.attachedAudioSender] else []
      if env.createOfferOk = false then
        let r := ringFail p1 id c1 "unable to create offer"
        (evAud ++ r.1, r.2.1, r.2.2)
      else if env.setLocalOk = false then
        let r := ringFail p1 id c1 "unable to set local description"
        (evAud ++ r.1, r.2.1, r.2.2)
      else
        let c2 := { c1 with localDescription := some "offer" }
        if env.marshalOk = false then
          let r := ringFail p1 id c2 "unable to marshal offer into json"
          (evAud ++ r.1, r.2.1, r.2.2)
        else
          let c3 := { c2 with remoteAddr := remote,
                              state := ConnectionState.Ringing }
          if env.postOk = false then
            let r := ringFail p1 id c3 "unable to dial"
            (evAud ++ [Event.log "dialing"] ++ r.1, r.2.1, r.2.2)
          else if env.postCloseOk = false then
            let r := ringFail p1 id c3 "unable to close response"
            (evAud ++ [Event.log "dialing",
              Event.sentSDP remote offerAction p.listenAddr] ++ r.1,
              r.2.1, r.2.2)
          else
            (evAud ++ [Event.log "dialing",
              Event.sentSDP remote offerAction p.listenAddr],
              p1.setConn id c3, some id)

/-- `Connection.SendMsg`: requires InCall, otherwise only a log line; a
send failure on the data channel is only logged. -/
def sendMsg (c : Conn) (msg : String) (sendOk : Bool) : List Event :=
  if c.state ≠ ConnectionState.InCall then
    [Event.log "but there was nobody listening"]
  else if sendOk then [Event.sentText c.remoteAddr msg]
  else [Event.log "could not send message"]

/-- Command outcome: `crash` models a nil-pointer dereference panic, with
the events emitted before the crash. -/
inductive CmdOutcome where
  | ok (evs : List Event) (p : Peer)
  | crash (evs : List Event)
deriving DecidableEq, Repr

/-- The `/msg` branch of `parseCommand` together with `Connection.SendMsg`.
`args` is the already-split command line.  When the destination has no
connection the source logs "no such destination" but is missing a return,
so `SendMsg` is then invoked on the nil `*Connection` and dereferences
`conn.state`: a nil-pointer panic, modelled as `crash`. -/
def msgCmd (p : Peer) (args : List String) (cmd : String) (sendOk : Bool) :
    CmdOutcome :=
  if args.length < 2 then CmdOutcome.ok [Event.log "specify whom"] p
  else
    match p.lookup (args[1]?.getD "") with
    | none => CmdOutcome.crash [Event.log "no such destination"]
    | some id =>
      match p.getConn id with
      | none => CmdOutcome.crash []
      | some c => CmdOutcome.ok (sendMsg c cmd sendOk) p

/-- One `ParseNextPage`/`WriteSample` round of the `sendAudio` loop, as seen
by the loop: a page (with the write outcome), end of file, or a read
error. -/
inductive PageRead where
  | page (writeOk : Bool)
  | eofR
  | errR
deriving DecidableEq, Repr

/-- The loop body of `Connection.sendAudio`: while the state is InCall, read
the next page; EOF, a read error, or a write error closes the connection and
returns. -/
def sendAudioLoop (p : Peer) (id : ConnId) : List PageRead → List Event × Peer
  | [] => ([], p)
  | r :: rest =>
    match p.getConn id with
    | none => ([], p)
    | some c =>
      if c.state ≠ ConnectionState.InCall then ([], p)
      else
        match r with
        | PageRead.eofR =>
          let cl := closeConn p id
          (Event.log "end of audio" :: cl.1, cl.2)
        | PageRead.errR =>
          let cl := closeConn p id
          (Event.log "error reading audio pages" :: cl.1, cl.2)
        | PageRead.page w =>
          if w then
            let r2 := sendAudioLoop p id rest
            (Event.sentSample :: r2.1, r2.2)
          else
            let cl := closeConn p id
            (Event.log "error writing samples" :: cl.1, cl.2)

/-- `Connection.sendAudio`. -/
def sendAudio (p : Peer) (id : ConnId) (stream : List PageRead) :
    List Event × Peer :=
  let r := sendAudioLoop p id stream
  (Event.log "sending audio" :: r.1, r.2)

/-- One `ReadRTP`/`WriteRTP` round of the `saveToDisk` loop: a packet (with
the write outcome) or a read error. -/
inductive RTPRead where
  | packet (writeOk : Bool)
  | rerr
deriving DecidableEq, Repr

/-- The loop body of `Connection.saveToDisk`: while the state is InCall,
read the next packet; a read or write error closes the connection and
returns. -/
def saveToDiskLoop (p : Peer) (id : ConnId) : List RTPRead → List Event × Peer
  | [] => ([], p)
  | r :: rest =>
    match p.getConn id with
    | none => ([], p)
    | some c =>
      if c.state ≠ ConnectionState.InCall then ([], p)
      else
        match r with
        | RTPRead.rerr =>
          let cl := closeConn p id
          (Event.log "error reading rtp stream" :: cl.1, cl.2)
        | RTPRead.packet w =>
          if w then
            let r2 := saveToDiskLoop p id rest
            (Event.wroteToDisk :: r2.1, r2.2)
          else
            let cl := closeConn p id
            (Event.log "error writing to disk" :: cl.1, cl.2)

/-- `Connection.saveToDisk`: the deferred file close runs on every return
path. -/
def saveToDisk (p : Peer) (id : ConnId) (stream : List RTPRead) :
    List Event × Peer :=
  let r := saveToDiskLoop p id stream
  (r.1 ++ [Event.closedFile], r.2)

/-! ### Concrete objects used by witnesses and counterexamples -/

/-- A peer with an empty registry. -/
def p8001 : Peer := { listenAddr := "localhost:8001", connections := [], store := [] }

/-- A `Ring` environment in which only `CreateDataChannel` fails. -/
def ringEnvDCFail : RingEnv :=
  { newPeerOk := true, createDataChanOk := false, loadAudioOk := true,
    createOfferOk := true, setLocalOk := true, marshalOk := true,
    postOk := true, postCloseOk := true }

/-- An SDP environment in which every external call succeeds. -/
def allOkSDP : SDPEnv :=
  { newPeerOk := true, setRemoteOk := true, refuseMarshalOk := true,
    refusePostOk := true, refuseCloseOk := true, createAnswerOk := true,
    answerMarshalOk := true, answerPostOk := true, answerCloseOk := true,
    setLocalAnswerOk := true, candOk := fun _ => true }

/-- An SDP environment in which only `SetRemoteDescription` fails. -/
def sdpEnvSRFail : SDPEnv := { allOkSDP with setRemoteOk := false }

/-- An initiator connection ringing localhost:8002 with one buffered
candidate. -/
def ringingConn : Conn :=
  { remoteAddr := "localhost:8002", isInitiator := true,
    mode := ConnectionMode.TextConnection, state := ConnectionState.Ringing,
    pendingCandidates := ["cand1"], dataChan := true, audioSndr := false,
    remoteDescription := none, localDescription := some "offer" }

/-- `ringingConn` after its remote description has been set. -/
def ringingConnRD : Conn := { ringingConn with remoteDescription := some "desc" }

/-- A registry holding only `ringingConn`. -/
def ringingPeer : Peer :=
  { listenAddr := "localhost:8001", connections := [("localhost:8002", 0)],
    store := [ringingConn] }

/-- An Answer signal from localhost:8002. -/
def answerSignal : SignalSDP :=
  { sdp := "answer-sdp", action := 1, mode := ConnectionMode.TextConnection,
    origin := "localhost:8002" }

/-- A Refuse signal from localhost:8002. -/
def refuseSignal : SignalSDP :=
  { sdp := "", action := 2, mode := ConnectionMode.TextConnection,
    origin := "localhost:8002" }

/-- An Offer signal from localhost:8001. -/
def offerSignal : SignalSDP :=
  { sdp := "offer-sdp", action := 0, mode := ConnectionMode.TextConnection,
    origin := "localhost:8001" }

/-- A responder-side peer that knows localhost:8001 with a fresh Standby
connection. -/
def standbyPeer : Peer :=
  { listenAddr := "localhost:8002", connections := [("localhost:8001", 0)],
    store := [newConn ConnectionMode.TextConnection] }

/-- A connection in an active call. -/
def inCallConn : Conn := { ringingConnRD with state := ConnectionState.InCall }

/-- A registry holding only `inCallConn`. -/
def inCallPeer : Peer :=
  { listenAddr := "localhost:8001", connections := [("localhost:8002", 0)],
    store := [inCallConn] }

/-- Recognizer for candidate-signaling events. -/
def isSentCandidate : Event → Bool
  | Event.sentCandidate _ _ _ => true
  | _ => false

/-! ### General helper lemmas -/

theorem lget_set_self {α : Type} (l : List α) (i : Nat) (a b : α)
    (h : l[i]? = some b) : (l.set i a)[i]? = some a := by
  rw [List.getElem?_set_self']
  rw [h]
  rfl

theorem lset_of_get {α : Type} (l : List α) (i : Nat) (a : α)
    (h : l[i]? = some a) : l.set i a = l := by
  induction l generalizing i with
  | nil => simp at h
  | cons x xs ih =>
    cases i with
    | zero => simp at h; simp [List.set, h]
    | succ n => simp at h; simp [List.set, ih n h]

theorem lookup_filter_ne {β : Type} (a : String) (l : List (String × β)) :
    List.lookup a (l.filter (fun e => e.1 ≠ a)) = none := by
  induction l with
  | nil => rfl
  | cons x xs ih =>
    rcases x with ⟨k, v⟩
    by_cases hk : k = a
    · simpa [List.filter_cons, hk] using ih
    · have hne : (a == k) = false := by
        simp [Ne.symm hk]
      simp [List.filter_cons, hk, List.lookup, hne, ih]
      intro x b _ h
      exact fun hh => h hh.symm

theorem setConn_same (p : Peer) (id : ConnId) (c : Conn)
    (hg : p.getConn id = some c) : p.setConn id c = p := by
  simp only [Peer.setConn]
  rw [lset_of_get _ _ _ hg]

theorem getConn_setConn (p : Peer) (id : ConnId) (c c1 : Conn)
    (hg : p.getConn id = some c) :
    (p.setConn id c1).getConn id = some c1 := by
  simp only [Peer.getConn, Peer.setConn]
  exact lget_set_self _ _ _ _ hg

/-! ### Reduction lemmas for the model functions -/

theorem httpHandleSDP_found (env : SDPEnv) (p : Peer) (id : ConnId) (c : Conn)
    (s : SignalSDP) (hl : p.lookup s.origin = some id)
    (hg : p.getConn id = some c) :
    httpHandleSDP env p (some s) =
      ((sdpSwitchAndApply env p.listenAddr s.origin s.sdp s.action c).1,
        p.setConn id
          (sdpSwitchAndApply env p.listenAddr s.origin s.sdp s.action c).2) := by
  simp only [httpHandleSDP, hl, hg]

theorem httpHandleSDP_create (env : SDPEnv) (p : Peer) (s : SignalSDP)
    (hl : p.lookup s.origin = none) (hok : env.newPeerOk = true) :
    httpHandleSDP env p (some s) =
      ((sdpSwitchAndApply env p.listenAddr s.origin s.sdp s.action
          (newConn s.mode)).1,
        Peer.setConn
          { p with store := p.store ++ [newConn s.mode]
                   connections := (s.origin, p.store.length) :: p.connections }
          p.store.length
          (sdpSwitchAndApply env p.listenAddr s.origin s.sdp s.action
            (newConn s.mode)).2) := by
  simp only [httpHandleSDP, hl, hok]
  simp

theorem closeConn_live (p : Peer) (id : ConnId) (c : Conn)
    (hg : p.getConn id = some c) (hne : c.state ≠ ConnectionState.Closed) :
    closeConn p id =
      ((if c.dataChan then [Event.closedDataChan] else []) ++
        [Event.closedPeerConn, Event.log "connection closed"],
        (p.setConn id { c with state := ConnectionState.Closed }).eraseAddr
          c.remoteAddr) := by
  simp only [closeConn, hg]
  rw [if_neg hne]

theorem closeConn_closed (p : Peer) (id : ConnId) (c : Conn)
    (hg : p.getConn id = some c) (h : c.state = ConnectionState.Closed) :
    closeConn p id = ([], p) := by
  simp only [closeConn, hg]
  rw [if_pos h]

theorem closeConn_getConn (p : Peer) (id : ConnId) (c : Conn)
    (hg : p.getConn id = some c) (hne : c.state ≠ ConnectionState.Closed) :
    (closeConn p id).2.getConn id =
      some { c with state := ConnectionState.Closed } := by
  rw [closeConn_live p id c hg hne]
  simp only [Peer.getConn, Peer.eraseAddr, Peer.setConn]
  exact lget_set_self _ _ _ _ hg

theorem closeConn_emits (p : Peer) (id : ConnId) (c : Conn)
    (hg : p.getConn id = some c) (hne : c.state ≠ ConnectionState.Closed) :
    Event.closedPeerConn ∈ (closeConn p id).1 := by
  rw [closeConn_live p id c hg hne]
  cases hd : c.dataChan <;> simp [hd]

theorem switch_refuse_ringing (env : SDPEnv) (listen origin sdp : String)
    (c : Conn) (h : c.state = ConnectionState.Ringing) :
    sdpSwitchAndApply env listen origin sdp 2 c =
      ([Event.log "remote appears to be busy"],
        { c with state := ConnectionState.Standby }) := by
  simp [sdpSwitchAndApply, refuseAction, offerAction, answerAction, h]

theorem switch_refuse_other (env : SDPEnv) (listen origin sdp : String)
    (c : Conn) (h : c.state ≠ ConnectionState.Ringing) :
    sdpSwitchAndApply env listen origin sdp 2 c =
      ([Event.log "refusal but we were not calling"], c) := by
  simp [sdpSwitchAndApply, refuseAction, offerAction, answerAction, h]

theorem switch_offer_busy (env : SDPEnv) (listen origin sdp : String)
    (c : Conn) (h : c.state ≠ ConnectionState.Standby) :
    sdpSwitchAndApply env listen origin sdp 0 c =
      ([Event.log "answering incoming call but we are busy"], c) := by
  simp [sdpSwitchAndApply, offerAction, h]

theorem switch_offer_standby (env : SDPEnv) (listen origin sdp : String)
    (c : Conn) (h : c.state = ConnectionState.Standby) :
    sdpSwitchAndApply env listen origin sdp 0 c =
      (Event.log "incoming call" ::
        (sdpApply env listen origin sdp 0
          { c with state := ConnectionState.Answering,
                   remoteAddr := origin }).1,
        (sdpApply env listen origin sdp 0
          { c with state := ConnectionState.Answering,
                   remoteAddr := origin }).2) := by
  simp [sdpSwitchAndApply, offerAction, h]

theorem switch_answer_ringing (env : SDPEnv) (listen origin sdp : String)
    (c : Conn) (h : c.state = ConnectionState.Ringing) :
    sdpSwitchAndApply env listen origin sdp 1 c =
      (Event.log "answer" :: (sdpApply env listen origin sdp 1 c).1,
        (sdpApply env listen origin sdp 1 c).2) := by
  simp [sdpSwitchAndApply, answerAction, offerAction, h]

theorem switch_nonoffer_standby (env : SDPEnv) (listen origin sdp : String)
    (action : Nat) (c : Conn) (hna : action ≠ 0)
    (hst : c.state = ConnectionState.Standby) :
    (sdpSwitchAndApply env listen origin sdp action c).2 = c := by
  simp only [sdpSwitchAndApply, offerAction, answerAction, refuseAction]
  rw [if_neg hna]
  by_cases h1 : action = 1
  · simp [h1, hst]
  · rw [if_neg h1]
    by_cases h2 : action = 2
    · simp [h2, hst]
    · rw [if_neg h2]

theorem sdpApply_refuse_sent (env : SDPEnv) (listen origin sdp : String)
    (action : Nat) (c : Conn) (hsr : env.setRemoteOk = false)
    (hm : env.refuseMarshalOk = true) (hp : env.refusePostOk = true) :
    Event.sentSDP origin refuseAction listen ∈
      (sdpApply env listen origin sdp action c).1 ∧
    (sdpApply env listen origin sdp action c).2 = c := by
  simp only [sdpApply, hsr, hm, hp]
  cases hc : env.refuseCloseOk <;> simp [hc]

theorem drainPending_all_ok (candOk : String → Bool) (listen remote : String)
    (cs : List String) (h : ∀ x ∈ cs, candOk x = true) :
    drainPending candOk listen remote cs =
      (cs.map (fun cd => Event.sentCandidate remote cd listen), true) := by
  induction cs with
  | nil => rfl
  | cons a rest ih =>
    have ha := h a (List.mem_cons_self a rest)
    simp [drainPending, signalCandidate, ha,
      ih (fun x hx => h x (List.mem_cons_of_mem a hx))]

theorem sdpApply_answer_ok (env : SDPEnv) (listen origin sdp : String)
    (c : Conn) (hst : c.state = ConnectionState.Ringing)
    (hsr : env.setRemoteOk = true)
    (hall : ∀ x ∈ c.pendingCandidates, env.candOk x = true) :
    sdpApply env listen origin sdp 1 c =
      ((if c.mode = ConnectionMode.VoiceConnectionDuplex then
          [Event.attachedAudioReceiver] else []) ++
        c.pendingCandidates.map
          (fun cd => Event.sentCandidate c.remoteAddr cd listen),
        { c with remoteDescription := some sdp,
                 state := ConnectionState.InCall }) := by
  simp only [sdpApply, hsr, sdpDrain]
  rw [drainPending_all_ok env.candOk listen c.remoteAddr c.pendingCandidates hall]
  simp [offerAction, hst]

theorem filter_sent_map (remote listen : String) (cs : List String) :
    (cs.map (fun cd => Event.sentCandidate remote cd listen)).filter
      isSentCandidate =
      cs.map (fun cd => Event.sentCandidate remote cd listen) := by
  refine List.filter_eq_self.mpr ?_
  intro a ha
  simp only [List.mem_map] at ha
  obtain ⟨cd, _, rfl⟩ := ha
  rfl

theorem sendAudioLoop_cons (p : Peer) (id : ConnId) (c : Conn) (r : PageRead)
    (rest : List PageRead) (hg : p.getConn id = some c)
    (hs : c.state = ConnectionState.InCall) :
    sendAudioLoop p id (r :: rest) =
      match r with
      | PageRead.eofR =>
        (Event.log "end of audio" :: (closeConn p id).1, (closeConn p id).2)
      | PageRead.errR =>
        (Event.log "error reading audio pages" :: (closeConn p id).1,
          (closeConn p id).2)
      | PageRead.page w =>
        if w then
          (Event.sentSample :: (sendAudioLoop p id rest).1,
            (sendAudioLoop p id rest).2)
        else
          (Event.log "error writing samples" :: (closeConn p id).1,
            (closeConn p id).2) := by
  simp only [sendAudioLoop, hg, hs]
  simp

theorem sendAudioLoop_closes (p : Peer) (id : ConnId) (c : Conn)
    (hg : p.getConn id = some c) (hs : c.state = ConnectionState.InCall)
    (good : List PageRead) (bad : PageRead) (rest : List PageRead)
    (hgood : ∀ x ∈ good, x = PageRead.page true)
    (hbad : bad = PageRead.eofR ∨ bad = PageRead.errR ∨
      bad = PageRead.page false) :
    sendAudioLoop p id (good ++ bad :: rest) =
      sendAudioLoop p id (good ++ [bad]) ∧
    ((sendAudioLoop p id (good ++ bad :: rest)).2.getConn id).map Conn.state =
      some ConnectionState.Closed ∧
    Event.closedPeerConn ∈ (sendAudioLoop p id (good ++ bad :: rest)).1 := by
  have hne : c.state ≠ ConnectionState.Closed := by
    simp [hs]
  induction good with
  | nil =>
    rw [List.nil_append, List.nil_append]
    rw [sendAudioLoop_cons p id c bad rest hg hs]
    rw [sendAudioLoop_cons p id c bad [] hg hs]
    rcases hbad with hb | hb | hb <;> rw [hb] <;>
      exact ⟨rfl,
        by simp [closeConn_getConn p id c hg hne],
        by simp [closeConn_emits p id c hg hne]⟩
  | cons x g ih =>
    have hx := hgood x (List.mem_cons_self x g)
    have hg' : ∀ y ∈ g, y = PageRead.page true :=
      fun y hy => hgood y (List.mem_cons_of_mem x hy)
    have ihh := ih hg'
    rw [hx]
    rw [List.cons_append, List.cons_append]
    rw [sendAudioLoop_cons p id c (PageRead.page true) (g ++ bad :: rest) hg hs]
    rw [sendAudioLoop_cons p id c (PageRead.page true) (g ++ [bad]) hg hs]
    simp only [if_pos rfl]
    exact ⟨by rw [ihh.1], ihh.2.1, List.mem_cons_of_mem _ ihh.2.2⟩

theorem saveToDiskLoop_cons (p : Peer) (id : ConnId) (c : Conn) (r : RTPRead)
    (rest : List RTPRead) (hg : p.getConn id = some c)
    (hs : c.state = ConnectionState.InCall) :
    saveToDiskLoop p id (r :: rest) =
      match r with
      | RTPRead.rerr =>
        (Event.log "error reading rtp stream" :: (closeConn p id).1,
          (closeConn p id).2)
      | RTPRead.packet w =>
        if w then
          (Event.wroteToDisk :: (saveToDiskLoop p id rest).1,
            (saveToDiskLoop p id rest).2)
        else
          (Event.log "error writing to disk" :: (closeConn p id).1,
            (closeConn p id).2) := by
  simp only [saveToDiskLoop, hg, hs]
  simp

theorem saveToDiskLoop_closes (p : Peer) (id : ConnId) (c : Conn)
    (hg : p.getConn id = some c) (hs : c.state = ConnectionState.InCall)
    (good : List RTPRead) (bad : RTPRead) (rest : List RTPRead)
    (hgood : ∀ x ∈ good, x = RTPRead.packet true)
    (hbad : bad = RTPRead.rerr ∨ bad = RTPRead.packet false) :
    saveToDiskLoop p id (good ++ bad :: rest) =
      saveToDiskLoop p id (good ++ [bad]) ∧
    ((saveToDiskLoop p id (good ++ bad :: rest)).2.getConn id).map Conn.state =
      some ConnectionState.Closed ∧
    Event.closedPeerConn ∈ (saveToDiskLoop p id (good ++ bad :: rest)).1 := by
  have hne : c.state ≠ ConnectionState.Closed := by
    simp [hs]
  induction good with
  | nil =>
    rw [List.nil_append, List.nil_append]
    rw [saveToDiskLoop_cons p id c bad rest hg hs]
    rw [saveToDiskLoop_cons p id c bad [] hg hs]
    rcases hbad with hb | hb <;> rw [hb] <;>
      exact ⟨rfl,
        by simp [closeConn_getConn p id c hg hne],
        by simp [closeConn_emits p id c hg hne]⟩
  | cons x g ih =>
    have hx := hgood x (List.mem_cons_self x g)
    have hg' : ∀ y ∈ g, y = RTPRead.packet true :=
      fun y hy => hgood y (List.mem_cons_of_mem x hy)
    have ihh := ih hg'
    rw [hx]
    rw [List.cons_append, List.cons_append]
    rw [saveToDiskLoop_cons p id c (RTPRead.packet true) (g ++ bad :: rest) hg hs]
    rw [saveToDiskLoop_cons p id c (RTPRead.packet true) (g ++ [bad]) hg hs]
    simp only [if_pos rfl]
    exact ⟨by rw [ihh.1], ihh.2.1, List.mem_cons_of_mem _ ihh.2.2⟩

/-! ### Claim C1 -/

/-- Claim C1 (code bug): the claim says that when a step of Dial fails the
partially constructed Session is closed and no Session remains registered
under the dialed address.  Evaluating `Ring` on an empty registry with
`CreateDataChannel` failing shows the divergence: the dial is aborted
(`none` is returned) and the connection is closed, but because the source
registers the connection before checking the error and `newConnection`
never sets `remoteAddr`, the fail-path `Close` deletes the registry key
`""` and the Closed session stays registered under "localhost:8002". -/
theorem c1_ring_failure_keeps_registration :
    (ringCall ringEnvDCFail p8001 "localhost:8002"
        ConnectionMode.TextConnection).2.2 = none ∧
    (ringCall ringEnvDCFail p8001 "localhost:8002"
        ConnectionMode.TextConnection).2.1.lookup "localhost:8002" = some 0 ∧
    ((ringCall ringEnvDCFail p8001 "localhost:8002"
        ConnectionMode.TextConnection).2.1.getConn 0).map Conn.state =
      some ConnectionState.Closed ∧
    Event.closedPeerConn ∈
      (ringCall ringEnvDCFail p8001 "localhost:8002"
        ConnectionMode.TextConnection).1 := by
  refine ⟨rfl, rfl, rfl, ?_⟩
  decide

/-! ### Claim C2 -/

/-- Claim C2 counterexample: the claim says the pending buffer is drained
exactly once "and cleared".  After an Answer is applied on a Ringing
session holding one buffered candidate, with every external call
succeeding, the session reaches InCall but `pendingCandidates` still holds
the drained candidate: the source never clears the buffer. -/
theorem c2_buffer_not_cleared :
    ((httpHandleSDP allOkSDP ringingPeer (some answerSignal)).2.getConn 0).map
        Conn.pendingCandidates = some ["cand1"] ∧
    ((httpHandleSDP allOkSDP ringingPeer (some answerSignal)).2.getConn 0).map
        Conn.state = some ConnectionState.InCall := by
  exact ⟨rfl, rfl⟩

/-- Claim C2 (amended): candidates are buffered exactly while the remote
description is unset and signaled immediately (without buffering) once it
is set; the handler execution that sets the remote description signals
each buffered candidate exactly once, in buffering order, but does not
clear the buffer (the final connection record retains `pendingCandidates`
unchanged). -/
theorem c2_candidate_buffering (candOkU candOkS : String → Bool)
    (listenU listenS : String) (cU cS : Conn) (candU candS : String)
    (d : String) (env : SDPEnv) (p : Peer) (id : ConnId) (c : Conn)
    (s : SignalSDP) (hU : cU.remoteDescription = none)
    (hS : cS.remoteDescription = some d) (hok : candOkS candS = true)
    (hl : p.lookup s.origin = some id) (hg : p.getConn id = some c)
    (hst : c.state = ConnectionState.Ringing) (ha : s.action = 1)
    (hsr : env.setRemoteOk = true)
    (hall : ∀ x ∈ c.pendingCandidates, env.candOk x = true) :
    handleICECandidate candOkU listenU cU (some candU) =
      ICEOutcome.ret []
        { cU with pendingCandidates := cU.pendingCandidates ++ [candU] } ∧
    handleICECandidate candOkS listenS cS (some candS) =
      ICEOutcome.ret [Event.sentCandidate cS.remoteAddr candS listenS] cS ∧
    (httpHandleSDP env p (some s)).1.filter isSentCandidate =
      c.pendingCandidates.map
        (fun cd => Event.sentCandidate c.remoteAddr cd p.listenAddr) ∧
    (httpHandleSDP env p (some s)).2.getConn id =
      some { c with remoteDescription := some s.sdp,
                    state := ConnectionState.InCall } := by
  have hf := httpHandleSDP_found env p id c s hl hg
  rw [ha] at hf
  rw [switch_answer_ringing env p.listenAddr s.origin s.sdp c hst] at hf
  rw [sdpApply_answer_ok env p.listenAddr s.origin s.sdp c hst hsr hall] at hf
  rw [hf]
  refine ⟨?_, ?_, ?_, getConn_setConn p id c _ hg⟩
  · simp [handleICECandidate, hU]
  · simp [handleICECandidate, hS, signalCandidate, hok]
  · by_cases hm : c.mode = ConnectionMode.VoiceConnectionDuplex <;>
      simp [hm, List.filter_cons, List.filter_append, isSentCandidate,
        filter_sent_map]

/-- Claim C2 witness: the amended buffering behavior at concrete inputs. -/
theorem c2_candidate_buffering_witness :
    handleICECandidate (fun _ => true) "localhost:8001" ringingConn
        (some "candX") =
      ICEOutcome.ret []
        { ringingConn with
            pendingCandidates := ringingConn.pendingCandidates ++ ["candX"] } ∧
    handleICECandidate (fun _ => true) "localhost:8001" ringingConnRD
        (some "candX") =
      ICEOutcome.ret
        [Event.sentCandidate ringingConnRD.remoteAddr "candX" "localhost:8001"]
        ringingConnRD ∧
    (httpHandleSDP allOkSDP ringingPeer (some answerSignal)).1.filter
        isSentCandidate =
      ringingConn.pendingCandidates.map
        (fun cd => Event.sentCandidate ringingConn.remoteAddr cd
          ringingPeer.listenAddr) ∧
    (httpHandleSDP allOkSDP ringingPeer (some answerSignal)).2.getConn 0 =
      some { ringingConn with remoteDescription := some answerSignal.sdp,
                              state := ConnectionState.InCall } :=
  c2_candidate_buffering (fun _ => true) (fun _ => true) "localhost:8001"
    "localhost:8001" ringingConn ringingConnRD "candX" "candX" "desc"
    allOkSDP ringingPeer 0 ringingConn answerSignal rfl rfl rfl rfl rfl rfl
    rfl rfl (fun x _ => rfl)

/-! ### Claim C3 -/

/-- Claim C3 counterexample: the claim says that when applying the remote
description fails the Session undergoes no state change.  Handling an
Offer on a Standby session with `SetRemoteDescription` failing leaves the
session in Answering (the state was Standby before the message), even
though a Refuse is sent back. -/
theorem c3_offer_state_not_restored :
    ((httpHandleSDP sdpEnvSRFail standbyPeer (some offerSignal)).2.getConn
        0).map Conn.state = some ConnectionState.Answering ∧
    (standbyPeer.getConn 0).map Conn.state = some ConnectionState.Standby ∧
    Event.sentSDP "localhost:8001" refuseAction "localhost:8002" ∈
      (httpHandleSDP sdpEnvSRFail standbyPeer (some offerSignal)).1 := by
  refine ⟨rfl, rfl, ?_⟩
  decide

/-- Claim C3 (amended): when applying a received Offer or Answer as the
remote description fails (and the Refuse marshal and post succeed), the
handler sends a Refuse signal back to the originating peer and no remote
description is applied; for an Answer the session record is completely
unchanged, but for an Offer the handler had already set the state to
Answering and `remoteAddr` to the origin before the failed apply, and
these mutations remain (the state is not restored to Standby). -/
theorem c3_refuse_sent_on_apply_failure (env env2 : SDPEnv) (p q : Peer)
    (id jd : ConnId) (cS cA : Conn) (s t : SignalSDP)
    (hl : p.lookup s.origin = some id) (hg : p.getConn id = some cS)
    (haO : s.action = 0) (hstO : cS.state = ConnectionState.Standby)
    (hsr : env.setRemoteOk = false) (hm : env.refuseMarshalOk = true)
    (hp : env.refusePostOk = true)
    (hl2 : q.lookup t.origin = some jd) (hg2 : q.getConn jd = some cA)
    (haA : t.action = 1) (hstA : cA.state = ConnectionState.Ringing)
    (hsr2 : env2.setRemoteOk = false) (hm2 : env2.refuseMarshalOk = true)
    (hp2 : env2.refusePostOk = true) :
    (Event.sentSDP s.origin refuseAction p.listenAddr ∈
        (httpHandleSDP env p (some s)).1 ∧
      (httpHandleSDP env p (some s)).2.getConn id =
        some { cS with state := ConnectionState.Answering,
                       remoteAddr := s.origin } ∧
      (httpHandleSDP env p (some s)).2.connections = p.connections) ∧
    (Event.sentSDP t.origin refuseAction q.listenAddr ∈
        (httpHandleSDP env2 q (some t)).1 ∧
      (httpHandleSDP env2 q (some t)).2 = q) := by
  have hf := httpHandleSDP_found env p id cS s hl hg
  rw [haO] at hf
  rw [switch_offer_standby env p.listenAddr s.origin s.sdp cS hstO] at hf
  have happ := sdpApply_refuse_sent env p.listenAddr s.origin s.sdp 0
    { cS with state := ConnectionState.Answering, remoteAddr := s.origin }
    hsr hm hp
  have hf2 := httpHandleSDP_found env2 q jd cA t hl2 hg2
  rw [haA] at hf2
  rw [switch_answer_ringing env2 q.listenAddr t.origin t.sdp cA hstA] at hf2
  have happ2 := sdpApply_refuse_sent env2 q.listenAddr t.origin t.sdp 1 cA
    hsr2 hm2 hp2
  rw [hf, happ.2]
  rw [hf2, happ2.2]
  refine ⟨⟨?_, getConn_setConn p id cS _ hg, rfl⟩,
    ⟨?_, setConn_same q jd cA hg2⟩⟩
  · exact List.mem_cons_of_mem _ happ.1
  · exact List.mem_cons_of_mem _ happ2.1

/-- Claim C3 witness: the amended refusal behavior at concrete inputs. -/
theorem c3_refuse_sent_on_apply_failure_witness :
    (Event.sentSDP offerSignal.origin refuseAction standbyPeer.listenAddr ∈
        (httpHandleSDP sdpEnvSRFail standbyPeer (some offerSignal)).1 ∧
      (httpHandleSDP sdpEnvSRFail standbyPeer (some offerSignal)).2.getConn 0 =
        some { newConn ConnectionMode.TextConnection with
                 state := ConnectionState.Answering,
                 remoteAddr := offerSignal.origin } ∧
      (httpHandleSDP sdpEnvSRFail standbyPeer
          (some offerSignal)).2.connections = standbyPeer.connections) ∧
    (Event.sentSDP answerSignal.origin refuseAction ringingPeer.listenAddr ∈
        (httpHandleSDP sdpEnvSRFail ringingPeer (some answerSignal)).1 ∧
      (httpHandleSDP sdpEnvSRFail ringingPeer (some answerSignal)).2 =
        ringingPeer) :=
  c3_refuse_sent_on_apply_failure sdpEnvSRFail sdpEnvSRFail standbyPeer
    ringingPeer 0 0 (newConn ConnectionMode.TextConnection) ringingConn
    offerSignal answerSignal rfl rfl rfl rfl rfl rfl rfl rfl rfl rfl rfl rfl
    rfl rfl

/-! ### Claim C4 -/

/-- Claim C4 counterexample: the claim says a failure to signal a locally
discovered candidate surfaces only as a diagnostic line and never crashes
the process.  With the remote description set and the signaling post
failing, `handleICECandidate` panics. -/
theorem c4_signal_failure_panics :
    handleICECandidate (fun _ => false) "localhost:8001" ringingConnRD
      (some "candX") = ICEOutcome.panicked := by
  rfl

/-- Claim C4 (amended): every locally discovered candidate is either
buffered (while the remote description is unset, with nothing signaled) or
signaled immediately (once it is set, without being buffered); but a
failure to signal an immediately-forwarded candidate causes a panic (a
process crash), not merely a diagnostic line. -/
theorem c4_candidate_dichotomy (candOkS candOkF : String → Bool)
    (listen1 listen2 listen3 : String) (cU cS cF : Conn) (cand : String)
    (d e : String) (hU : cU.remoteDescription = none)
    (hS : cS.remoteDescription = some d) (hok : candOkS cand = true)
    (hF : cF.remoteDescription = some e) (hko : candOkF cand = false) :
    handleICECandidate candOkS listen1 cU (some cand) =
      ICEOutcome.ret []
        { cU with pendingCandidates := cU.pendingCandidates ++ [cand] } ∧
    handleICECandidate candOkS listen2 cS (some cand) =
      ICEOutcome.ret [Event.sentCandidate cS.remoteAddr cand listen2] cS ∧
    handleICECandidate candOkF listen3 cF (some cand) =
      ICEOutcome.panicked := by
  refine ⟨?_, ?_, ?_⟩ <;>
    simp [handleICECandidate, hU, hS, hF, signalCandidate, hok, hko]

/-- Claim C4 witness: the candidate dichotomy at concrete inputs. -/
theorem c4_candidate_dichotomy_witness :
    handleICECandidate (fun _ => true) "localhost:8001" ringingConn
        (some "candX") =
      ICEOutcome.ret []
        { ringingConn with
            pendingCandidates := ringingConn.pendingCandidates ++ ["candX"] } ∧
    handleICECandidate (fun _ => true) "localhost:8001" ringingConnRD
        (some "candX") =
      ICEOutcome.ret
        [Event.sentCandidate ringingConnRD.remoteAddr "candX" "localhost:8001"]
        ringingConnRD ∧
    handleICECandidate (fun _ => false) "localhost:8001" ringingConnRD
        (some "candX") = ICEOutcome.panicked :=
  c4_candidate_dichotomy (fun _ => true) (fun _ => false) "localhost:8001"
    "localhost:8001" "localhost:8001" ringingConn ringingConnRD ringingConnRD
    "candX" "desc" "desc" rfl rfl rfl rfl rfl

/-! ### Claim C5 -/

/-- Claim C5 (code bug): the claim says sending to a single named address
fails only with a diagnostic and never crashes.  For an address with no
Session, `parseCommand` logs "no such destination" but, lacking a return,
then calls `SendMsg` on the nil connection pointer: a nil-pointer
dereference crash.  The second conjunct shows the other failure case
(session not in call) does behave as claimed: a log line and no change. -/
theorem c5_msg_unknown_destination_crashes :
    msgCmd p8001 ["/msg", "localhost:9999"] "/msg localhost:9999 hi" true =
      CmdOutcome.crash [Event.log "no such destination"] ∧
    msgCmd ringingPeer ["/msg", "localhost:8002"] "/msg localhost:8002 hi"
        true =
      CmdOutcome.ok [Event.log "but there was nobody listening"]
        ringingPeer := by
  exact ⟨rfl, rfl⟩

/-! ### Claim C6 -/

/-- Claim C6 counterexample: the claim says an Answer whose origin has no
Session is dropped without adding any registry entry.  Handling an Answer
from the unknown origin "localhost:8003" on an empty registry adds an
entry for it. -/
theorem c6_answer_creates_session :
    p8001.lookup "localhost:8003" = none ∧
    (httpHandleSDP allOkSDP p8001
        (some { sdp := "x", action := 1,
                mode := ConnectionMode.TextConnection,
                origin := "localhost:8003" })).2.connections =
      [("localhost:8003", 0)] := by
  exact ⟨rfl, rfl⟩

/-- Claim C6 (amended): a candidate message from an unknown origin is
logged and dropped without touching the registry, but the SDP handler
creates and registers a new Standby Session for any SDP message from an
unknown origin before examining the action: for a non-Offer action the
message is then logged and dropped while the freshly created Session
remains registered untouched, and for an Offer the new Session is likewise
registered. -/
theorem c6_creation_behavior (p q r : Peer) (sc : SignalCandidateMsg)
    (addOk : Bool) (env env2 : SDPEnv) (s t : SignalSDP)
    (hc : p.lookup sc.origin = none)
    (h1 : q.lookup s.origin = none) (hok : env.newPeerOk = true)
    (hna : s.action ≠ 0)
    (h2 : r.lookup t.origin = none) (hok2 : env2.newPeerOk = true)
    (hta : t.action = 0) :
    httpHandleCandidate p (some sc) addOk =
      ([Event.log "got a candidate but was not expecting one"], p) ∧
    (httpHandleSDP env q (some s)).2.lookup s.origin = some q.store.length ∧
    (httpHandleSDP env q (some s)).2.getConn q.store.length =
      some (newConn s.mode) ∧
    (httpHandleSDP env2 r (some t)).2.lookup t.origin =
      some r.store.length := by
  refine ⟨?_, ?_, ?_, ?_⟩
  · simp only [httpHandleCandidate, hc]
  · rw [httpHandleSDP_create env q s h1 hok]
    simp [Peer.setConn, Peer.lookup, List.lookup]
  · rw [httpHandleSDP_create env q s h1 hok]
    rw [switch_nonoffer_standby env q.listenAddr s.origin s.sdp s.action
      (newConn s.mode) hna rfl]
    simp only [Peer.getConn, Peer.setConn]
    have hcat : (q.store ++ [newConn s.mode])[q.store.length]? =
        some (newConn s.mode) := by
      simp
    exact lget_set_self _ _ _ _ hcat
  · rw [httpHandleSDP_create env2 r t h2 hok2]
    simp [Peer.setConn, Peer.lookup, List.lookup]

/-- Claim C6 witness: the creation behavior at concrete inputs. -/
theorem c6_creation_behavior_witness :
    httpHandleCandidate p8001
        (some { candidate := "c", origin := "localhost:9999" }) true =
      ([Event.log "got a candidate but was not expecting one"], p8001) ∧
    (httpHandleSDP allOkSDP p8001
        (some { sdp := "x", action := 1,
                mode := ConnectionMode.TextConnection,
                origin := "localhost:8003" })).2.lookup "localhost:8003" =
      some p8001.store.length ∧
    (httpHandleSDP allOkSDP p8001
        (some { sdp := "x", action := 1,
                mode := ConnectionMode.TextConnection,
                origin := "localhost:8003" })).2.getConn p8001.store.length =
      some (newConn ConnectionMode.TextConnection) ∧
    (httpHandleSDP allOkSDP p8001
        (some { sdp := "x", action := 0,
                mode := ConnectionMode.TextConnection,
                origin := "localhost:8003" })).2.lookup "localhost:8003" =
      some p8001.store.length :=
  c6_creation_behavior p8001 p8001 p8001
    { candidate := "c", origin := "localhost:9999" } true allOkSDP allOkSDP
    { sdp := "x", action := 1, mode := ConnectionMode.TextConnection,
      origin := "localhost:8003" }
    { sdp := "x", action := 0, mode := ConnectionMode.TextConnection,
      origin := "localhost:8003" }
    rfl rfl rfl (by decide) rfl rfl rfl

/-! ### Claim C7 -/

/-- Claim C7 (confirmed): receiving a Refuse while the Session is Ringing
resets its state to Standby and returns without applying any remote
description (the full record equality shows every other field, including
`remoteDescription`, unchanged) and without touching the registry map;
receiving a Refuse in any other state changes nothing at all beyond the
diagnostic line. -/
theorem c7_refuse_transitions (env env2 : SDPEnv) (p q : Peer)
    (id jd : ConnId) (cR cN : Conn) (s t : SignalSDP)
    (hl : p.lookup s.origin = some id) (hg : p.getConn id = some cR)
    (ha : s.action = 2) (hR : cR.state = ConnectionState.Ringing)
    (hl2 : q.lookup t.origin = some jd) (hg2 : q.getConn jd = some cN)
    (ha2 : t.action = 2) (hN : cN.state ≠ ConnectionState.Ringing) :
    ((httpHandleSDP env p (some s)).1 =
        [Event.log "remote appears to be busy"] ∧
      (httpHandleSDP env p (some s)).2.getConn id =
        some { cR with state := ConnectionState.Standby } ∧
      (httpHandleSDP env p (some s)).2.connections = p.connections) ∧
    ((httpHandleSDP env2 q (some t)).1 =
        [Event.log "refusal but we were not calling"] ∧
      (httpHandleSDP env2 q (some t)).2 = q) := by
  have hf := httpHandleSDP_found env p id cR s hl hg
  rw [ha] at hf
  rw [switch_refuse_ringing env p.listenAddr s.origin s.sdp cR hR] at hf
  have hf2 := httpHandleSDP_found env2 q jd cN t hl2 hg2
  rw [ha2] at hf2
  rw [switch_refuse_other env2 q.listenAddr t.origin t.sdp cN hN] at hf2
  rw [hf, hf2]
  exact ⟨⟨rfl, getConn_setConn p id cR _ hg, rfl⟩,
    ⟨rfl, setConn_same q jd cN hg2⟩⟩

/-- Claim C7 witness: the Refuse transitions at concrete inputs. -/
theorem c7_refuse_transitions_witness :
    ((httpHandleSDP allOkSDP ringingPeer (some refuseSignal)).1 =
        [Event.log "remote appears to be busy"] ∧
      (httpHandleSDP allOkSDP ringingPeer (some refuseSignal)).2.getConn 0 =
        some { ringingConn with state := ConnectionState.Standby } ∧
      (httpHandleSDP allOkSDP ringingPeer (some refuseSignal)).2.connections =
        ringingPeer.connections) ∧
    ((httpHandleSDP allOkSDP inCallPeer (some refuseSignal)).1 =
        [Event.log "refusal but we were not calling"] ∧
      (httpHandleSDP allOkSDP inCallPeer (some refuseSignal)).2 =
        inCallPeer) :=
  c7_refuse_transitions allOkSDP allOkSDP ringingPeer inCallPeer 0 0
    ringingConn inCallConn refuseSignal refuseSignal rfl rfl rfl rfl rfl rfl
    rfl (by decide)

/-! ### Claim C8 -/

/-- Claim C8 (confirmed): closing a live Session a second time is a no-op
returning the very same end state with no events at all (in particular no
second close of the peer-session or data-channel handles, which the event
counts of the first call bound at one); the end state after the first
close has the session Closed and its remote address absent from the
registry. -/
theorem c8_close_idempotent (p : Peer) (id : ConnId) (c : Conn)
    (hg : p.getConn id = some c) (hne : c.state ≠ ConnectionState.Closed) :
    closeConn (closeConn p id).2 id = ([], (closeConn p id).2) ∧
    ((closeConn p id).2.getConn id).map Conn.state =
      some ConnectionState.Closed ∧
    (closeConn p id).2.lookup c.remoteAddr = none ∧
    (closeConn p id).1.count Event.closedPeerConn = 1 ∧
    (closeConn p id).1.count Event.closedDataChan =
      (if c.dataChan then 1 else 0) := by
  have hcc := closeConn_live p id c hg hne
  have hg2 : (closeConn p id).2.getConn id =
      some { c with state := ConnectionState.Closed } :=
    closeConn_getConn p id c hg hne
  refine ⟨?_, ?_, ?_, ?_, ?_⟩
  · exact closeConn_closed _ id _ hg2 rfl
  · rw [hg2]
    rfl
  · rw [hcc]
    simp only [Peer.lookup, Peer.eraseAddr, Peer.setConn]
    exact lookup_filter_ne _ _
  · rw [hcc]
    cases hd : c.dataChan <;> simp
  · rw [hcc]
    cases hd : c.dataChan <;> simp

/-- Claim C8 witness: idempotent close at a concrete registry. -/
theorem c8_close_idempotent_witness :
    closeConn (closeConn ringingPeer 0).2 0 =
      ([], (closeConn ringingPeer 0).2) ∧
    ((closeConn ringingPeer 0).2.getConn 0).map Conn.state =
      some ConnectionState.Closed ∧
    (closeConn ringingPeer 0).2.lookup ringingConn.remoteAddr = none ∧
    (closeConn ringingPeer 0).1.count Event.closedPeerConn = 1 ∧
    (closeConn ringingPeer 0).1.count Event.closedDataChan =
      (if ringingConn.dataChan then 1 else 0) :=
  c8_close_idempotent ringingPeer 0 ringingConn rfl (by decide)

/-! ### Claim C9 -/

/-- Claim C9 (confirmed): in both media streaming loops, reaching
end-of-source or any read or write error while the session is InCall
closes the owning Session via Close (the session ends Closed and the
peer-session close event is emitted), and the fault is never retried: the
loop result is identical whatever stream items would have followed the
faulting one. -/
theorem c9_stream_faults_close_session (p q : Peer) (id jd : ConnId)
    (c d : Conn) (good : List PageRead) (bad : PageRead)
    (rest : List PageRead) (good2 : List RTPRead) (bad2 : RTPRead)
    (rest2 : List RTPRead) (hg : p.getConn id = some c)
    (hs : c.state = ConnectionState.InCall)
    (hgood : ∀ x ∈ good, x = PageRead.page true)
    (hbad : bad = PageRead.eofR ∨ bad = PageRead.errR ∨
      bad = PageRead.page false)
    (hg2 : q.getConn jd = some d) (hs2 : d.state = ConnectionState.InCall)
    (hgood2 : ∀ x ∈ good2, x = RTPRead.packet true)
    (hbad2 : bad2 = RTPRead.rerr ∨ bad2 = RTPRead.packet false) :
    (sendAudio p id (good ++ bad :: rest) =
        sendAudio p id (good ++ [bad]) ∧
      ((sendAudio p id (good ++ bad :: rest)).2.getConn id).map Conn.state =
        some ConnectionState.Closed ∧
      Event.closedPeerConn ∈ (sendAudio p id (good ++ bad :: rest)).1) ∧
    (saveToDisk q jd (good2 ++ bad2 :: rest2) =
        saveToDisk q jd (good2 ++ [bad2]) ∧
      ((saveToDisk q jd (good2 ++ bad2 :: rest2)).2.getConn jd).map
          Conn.state = some ConnectionState.Closed ∧
      Event.closedPeerConn ∈ (saveToDisk q jd (good2 ++ bad2 :: rest2)).1) := by
  have h1 := sendAudioLoop_closes p id c hg hs good bad rest hgood hbad
  have h2 := saveToDiskLoop_closes q jd d hg2 hs2 good2 bad2 rest2 hgood2 hbad2
  refine ⟨⟨?_, h1.2.1, ?_⟩, ⟨?_, h2.2.1, ?_⟩⟩
  · simp only [sendAudio]
    rw [h1.1]
  · simp only [sendAudio]
    exact List.mem_cons_of_mem _ h1.2.2
  · simp only [saveToDisk]
    rw [h2.1]
  · simp only [saveToDisk]
    exact List.mem_append_left _ h2.2.2

/-- Claim C9 witness: stream faults at concrete streams. -/
theorem c9_stream_faults_close_session_witness :
    (sendAudio inCallPeer 0 ([PageRead.page true] ++ PageRead.eofR ::
        [PageRead.errR]) =
        sendAudio inCallPeer 0 ([PageRead.page true] ++ [PageRead.eofR]) ∧
      ((sendAudio inCallPeer 0 ([PageRead.page true] ++ PageRead.eofR ::
          [PageRead.errR])).2.getConn 0).map Conn.state =
        some ConnectionState.Closed ∧
      Event.closedPeerConn ∈
        (sendAudio inCallPeer 0 ([PageRead.page true] ++ PageRead.eofR ::
          [PageRead.errR])).1) ∧
    (saveToDisk inCallPeer 0 ([RTPRead.packet true] ++ RTPRead.rerr :: []) =
        saveToDisk inCallPeer 0 ([RTPRead.packet true] ++ [RTPRead.rerr]) ∧
      ((saveToDisk inCallPeer 0 ([RTPRead.packet true] ++ RTPRead.rerr ::
          [])).2.getConn 0).map Conn.state = some ConnectionState.Closed ∧
      Event.closedPeerConn ∈
        (saveToDisk inCallPeer 0 ([RTPRead.packet true] ++ RTPRead.rerr ::
          [])).1) :=
  c9_stream_faults_close_session inCallPeer inCallPeer 0 0 inCallConn
    inCallConn [PageRead.page true] PageRead.eofR [PageRead.errR]
    [RTPRead.packet true] RTPRead.rerr [] rfl rfl (by decide)
    (Or.inl rfl) rfl rfl (by decide) (Or.inl rfl)

/-! ### Claim C10 -/

/-- Claim C10 (confirmed): when an inbound Offer finds the target Session
in a state other than Standby, the handler emits exactly one diagnostic
log line (in particular no Refuse or any other outbound signal) and the
whole peer state, registry and Session included, is returned unchanged. -/
theorem c10_busy_offer_local_only (env : SDPEnv) (p : Peer) (id : ConnId)
    (c : Conn) (s : SignalSDP) (hl : p.lookup s.origin = some id)
    (hg : p.getConn id = some c) (ha : s.action = 0)
    (hst : c.state ≠ ConnectionState.Standby) :
    (httpHandleSDP env p (some s)).1 =
      [Event.log "answering incoming call but we are busy"] ∧
    (httpHandleSDP env p (some s)).2 = p := by
  have hf := httpHandleSDP_found env p id c s hl hg
  rw [ha] at hf
  rw [switch_offer_busy env p.listenAddr s.origin s.sdp c hst] at hf
  rw [hf]
  exact ⟨rfl, setConn_same p id c hg⟩

/-- Claim C10 witness: the busy-Offer rejection at concrete inputs. -/
theorem c10_busy_offer_local_only_witness :
    (httpHandleSDP allOkSDP ringingPeer
        (some { sdp := "o", action := 0,
                mode := ConnectionMode.TextConnection,
                origin := "localhost:8002" })).1 =
      [Event.log "answering incoming call but we are busy"] ∧
    (httpHandleSDP allOkSDP ringingPeer
        (some { sdp := "o", action := 0,
                mode := ConnectionMode.TextConnection,
                origin := "localhost:8002" })).2 = ringingPeer :=
  c10_busy_offer_local_only allOkSDP ringingPeer 0 ringingConn
    { sdp := "o", action := 0, mode := ConnectionMode.TextConnection,
      origin := "localhost:8002" } rfl rfl rfl (by decide)
